import Mathlib

/-!
Verification development for the FocusPulse service (src/main.py).

The Flask app is embedded shallowly: the two module-level registries
(`SESSIONS`, an insertion-ordered dict from session id to session record, and
`USER_SUMMARIES`) become insertion-ordered association lists; `datetime.now()`
and `uuid.uuid4()` become explicit parameters; time is measured in minutes as
an integer; outbound messages and scheduled timers are returned as lists
instead of performed as side effects; a Python exception that escapes a
handler is an `Except.error`.
-/

namespace FocusPulse

/-- A session record, with the exact fields stored by `start_focus`
(src/main.py:101-110); `completed_at` is added only by `end_break`
(src/main.py:82), so it is an `Option`. Statuses are the literal strings used
by the code. -/
structure Session where
  session_id : String
  user_id : String
  channel_id : String
  start : Int
  «end» : Int
  duration : Int
  «break» : Int
  status : String
  completed_at : Option Int
deriving DecidableEq

/-- The `SESSIONS` dict (src/main.py:34): a Python dict preserves insertion
order, so it is modelled as an association list in insertion order whose keys
are unique. -/
abbrev Registry := List (String × Session)

/-- An outbound message: (channel_id, text), the two arguments of
`send_to_telex`. -/
abbrev Msg := String × String

/-- A scheduled `threading.Timer`: (delay in minutes, target session id). -/
abbrev Timer := Int × String

/-- Python truthiness test `not x` for an optional string: `None` and the
empty string are falsy. -/
def falsy : Option String → Bool
  | none => true
  | some s => s == ""

/-- A JSON value as it may appear in the `duration` and `break` fields of a
request body. -/
inductive JVal where
  | jInt (n : Int)
  | jStr (s : String)
  | jNull
deriving DecidableEq

/-- The numeric value of a decimal digit character. -/
def digitVal? (c : Char) : Option Nat :=
  if '0' ≤ c ∧ c ≤ '9' then some (c.toNat - '0'.toNat) else none

/-- Accumulating decimal parse of a character list; fails on the first
non-digit. -/
def digitsAux : List Char → Nat → Option Nat
  | [], acc => some acc
  | c :: cs, acc =>
    match digitVal? c with
    | none => none
    | some d => digitsAux cs (acc * 10 + d)

/-- Parse a non-empty all-digit character list as a natural number. -/
def digits? : List Char → Option Nat
  | [] => none
  | cs => digitsAux cs 0

/-- Python `int` applied to a string: an optional leading minus sign followed
by one or more decimal digits (the whitespace and underscore tolerance of
CPython is not modelled; no claim depends on it). Fails (`none`) on anything
else. -/
def strToInt? (s : String) : Option Int :=
  match s.data with
  | '-' :: cs => (digits? cs).map (fun n => -(n : Int))
  | cs => (digits? cs).map (fun n => (n : Int))

/-- Python `int(v)`: succeeds on an integer, on a string that parses as an
integer, and raises (here: `none`) on `None` or a non-numeric string. -/
def pyInt? : JVal → Option Int
  | .jInt n => some n
  | .jStr s => strToInt? s
  | .jNull => none

/-- Python `int(data.get(key, dflt))`: the default is used only when the key
is absent; a present value goes through `int()` and may fail. -/
def coerced : Option JVal → Int → Option Int
  | none, dflt => some dflt
  | some v, _ => pyInt? v

/-- `SESSIONS.get(session_id)` (dict lookup). -/
def lookup (sid : String) (sessions : Registry) : Option Session :=
  (sessions.find? (fun p => p.1 == sid)).map Prod.snd

/-- In-place mutation of the record stored under an existing key: order is
preserved, only the value under `sid` changes. -/
def setSession (sid : String) (s : Session) (sessions : Registry) : Registry :=
  sessions.map (fun p => if p.1 == sid then (p.1, s) else p)

/-- Python dict assignment `SESSIONS[sid] = s`: overwrites in place when the
key exists, appends otherwise. -/
def dictInsert (sid : String) (s : Session) (sessions : Registry) : Registry :=
  if sessions.any (fun p => p.1 == sid) then setSession sid s sessions
  else sessions ++ [(sid, s)]

/- Message texts, from the f-strings in src/main.py. -/

/-- Text sent by `start_focus` (src/main.py:116). -/
def startText (uid : String) (d : Int) : String :=
  "🚀 <@" ++ uid ++ "> started a " ++ toString d ++
    "-minute focus session. I\x27ll remind you when it\x27s done."

/-- Text sent by `end_focus` (src/main.py:67). -/
def focusDoneText (uid : String) (b : Int) : String :=
  "⏰ Focus session finished for <@" ++ uid ++ ">! Time for a " ++ toString b ++
    " minute break."

/-- Text sent by `end_break` (src/main.py:83). -/
def breakOverText (uid : String) : String :=
  "✅ Break over — ready for the next focus session, <@" ++ uid ++ ">?"

/-- Text sent by `stop_focus` (src/main.py:141 and 148). -/
def stopText (uid : String) : String :=
  "🛑 Focus session stopped for <@" ++ uid ++ ">."

/-- Translated from `send_to_telex` (src/main.py:42-57). `webhook_url` models
the `TELEX_WEBHOOK_URL` environment variable (`None` when unset; the empty
string is also falsy at line 48); `post_result` models the outcome of
`requests.post` followed by `raise_for_status` (`Except.error` for any raised
exception, which the `except Exception` at line 55 catches). The function is
total and Bool-valued: it never propagates an exception. -/
def send_to_telex (webhook_url : Option String) (post_result : Except String Unit) :
    Bool :=
  if falsy webhook_url then true
  else
    match post_result with
    | .ok _ => true
    | .error _ => false

/-- Translated from `end_focus` (src/main.py:60-72). Returns the updated
registry, the messages sent, and the break timers scheduled. The guard at
line 63 checks only that the session still exists; the current status is not
examined before line 65 overwrites it with `focus_completed`. The fields read
at lines 67 and 70 are read from the same record after the lock is released;
the mutation at line 65 changed only `status`, so they carry the original
values. -/
def end_focus (sid : String) (sessions : Registry) :
    Registry × List Msg × List Timer :=
  match lookup sid sessions with
  | none => (sessions, [], [])
  | some s =>
    (setSession sid { s with status := "focus_completed" } sessions,
     [(s.channel_id, focusDoneText s.user_id s.«break»)],
     [(s.«break», sid)])

/-- Translated from `end_break` (src/main.py:75-83); `now` models
`datetime.now()` at line 82. As in `end_focus`, only existence is checked
(line 78); the status is overwritten with `completed` unconditionally. -/
def end_break (sid : String) (now : Int) (sessions : Registry) :
    Registry × List Msg :=
  match lookup sid sessions with
  | none => (sessions, [])
  | some s =>
    (setSession sid { s with status := "completed", completed_at := some now } sessions,
     [(s.channel_id, breakOverText s.user_id)])

/-- The body of a `POST /start_focus` request. `user_id` and `channel_id` are
handled by the code only through truthiness, so they are optional strings;
`duration` and `break` may be any JSON value since they are fed to `int()`. -/
structure StartReq where
  user_id : Option String
  channel_id : Option String
  duration : Option JVal
  «break» : Option JVal
deriving DecidableEq

/-- The JSON response of `start_focus`: the 400 error body (src/main.py:95) or
the success body (src/main.py:123). -/
inductive StartResult where
  | badRequest (error : String)
  | started (session_id : String)
deriving DecidableEq

/-- Translated from `start_focus` (src/main.py:86-123). `sid` stands for
`str(uuid.uuid4())` and `now` for `datetime.now()`, both supplied by the
environment. Returns the response, the updated `SESSIONS` registry, the
messages sent, and the timers scheduled; `Except.error` models the uncaught
exception raised when `int()` fails at line 91 or 92, which happens before
the `user_id`/`channel_id` check at line 94. -/
def start_focus (req : StartReq) (sid : String) (now : Int) (sessions : Registry) :
    Except String (StartResult × Registry × List Msg × List Timer) :=
  match coerced req.duration 25 with
  | none => .error "invalid argument to int() in field duration"
  | some duration =>
    match coerced req.«break» 5 with
    | none => .error "invalid argument to int() in field break"
    | some brk =>
      if falsy req.user_id || falsy req.channel_id then
        .ok (.badRequest "user_id and channel_id required", sessions, [], [])
      else
        let user_id := req.user_id.getD ""
        let channel_id := req.channel_id.getD ""
        let session : Session :=
          { session_id := sid, user_id := user_id, channel_id := channel_id,
            start := now, «end» := now + duration, duration := duration,
            «break» := brk, status := "running", completed_at := none }
        .ok (.started sid, dictInsert sid session sessions,
             [(channel_id, startText user_id duration)], [(duration, sid)])

/-- The JSON response of `stop_focus`: 400 (src/main.py:133), 404
(src/main.py:139 and 150), or success, which carries the session id only on
the stop-by-user path (src/main.py:142 and 149). -/
inductive StopResult where
  | badRequest (error : String)
  | notFound (error : String)
  | stopped (session_id : Option String)
deriving DecidableEq

/-- The loop at src/main.py:145-149 runs over `list(SESSIONS.items())[::-1]`,
that is over the registry in reverse insertion order, and returns the first
entry whose session belongs to the user with status `running`. This scan
takes the already-reversed list. -/
def scanRunning (uid : String) : List (String × Session) → Option (String × Session)
  | [] => none
  | (sid, s) :: rest =>
    if s.user_id == uid && s.status == "running" then some (sid, s)
    else scanRunning uid rest

/-- Translated from `stop_focus` (src/main.py:126-150). On the
stop-by-session-id path the status is overwritten with `stopped` at line 140
with no check of the current status; on the stop-by-user path only `running`
sessions are considered. Both paths call `send_to_telex` while still inside
the `with lock:` block; the message lists returned here record those calls. -/
def stop_focus (session_id user_id : Option String) (sessions : Registry) :
    StopResult × Registry × List Msg :=
  if falsy session_id && falsy user_id then
    (.badRequest "session_id or user_id required", sessions, [])
  else if falsy session_id then
    match scanRunning (user_id.getD "") sessions.reverse with
    | none => (.notFound "no running session for user", sessions, [])
    | some (sid, s) =>
      (.stopped (some sid),
       setSession sid { s with status := "stopped" } sessions,
       [(s.channel_id, stopText (user_id.getD ""))])
  else
    match lookup (session_id.getD "") sessions with
    | none => (.notFound "session not found", sessions, [])
    | some s =>
      (.stopped none,
       setSession (session_id.getD "") { s with status := "stopped" } sessions,
       [(s.channel_id, stopText s.user_id)])

/-- Translated from `status` (src/main.py:153-157): the sessions whose
`user_id` matches, in insertion order. -/
def status (uid : String) (sessions : Registry) : List Session :=
  (sessions.map Prod.snd).filter (fun s => s.user_id == uid)

/-- Translated from the list comprehension at src/main.py:188: the sessions
of the user whose status is `completed` or `focus_completed`. -/
def list_completed_for_user (uid : String) (sessions : Registry) : List Session :=
  (sessions.map Prod.snd).filter
    (fun s => s.user_id == uid && (s.status == "completed" || s.status == "focus_completed"))

/-- The digest aggregation at src/main.py:189-190: the count of the filtered
sessions and the sum of their `duration` fields. -/
def daily_digest_counts (uid : String) (sessions : Registry) : Nat × Int :=
  ((list_completed_for_user uid sessions).length,
   ((list_completed_for_user uid sessions).map Session.duration).sum)

/-- One entry of `USER_SUMMARIES` (src/main.py:35 and 170). -/
structure SummaryCfg where
  enabled : Bool
  time : String
  channel_id : String
deriving DecidableEq

/-- The iteration at src/main.py:181-193 over `USER_SUMMARIES`, run while the
`with lock:` block entered at line 180 already holds the module-level
`threading.Lock`. When a config is enabled, its time matches, and the pair
(user, time) is not in `sent_today`, line 187 executes `with lock:` again on
the same non-reentrant lock, which blocks the thread forever; `none` models
that the scan never completes. The statements after line 187 (aggregation,
send, adding to `sent_today`) are unreachable, so a completing scan returns
`sent_today` unchanged and sends nothing. -/
def summaryScan (hhmm : String) (sent : List (String × String)) :
    List (String × SummaryCfg) → Option (List (String × String))
  | [] => some sent
  | (uid, cfg) :: rest =>
    if cfg.enabled && (cfg.time == hhmm && !(sent.contains (uid, hhmm))) then
      none
    else summaryScan hhmm sent rest

/-- One tick of `daily_summary_worker` (src/main.py:174-197): format the
clock as HH:MM, scan the summary configs (see `summaryScan`), then clear
`sent_today` when the clock reads 00:00 (src/main.py:195-196). `none` means
the tick deadlocks and the worker never runs again; `some` carries the new
`sent_today` set and the messages dispatched during the tick. -/
def daily_summary_tick (hhmm : String) (summaries : List (String × SummaryCfg))
    (sent : List (String × String)) :
    Option (List (String × String) × List Msg) :=
  match summaryScan hhmm sent summaries with
  | none => none
  | some sent1 => some (if hhmm == "00:00" then [] else sent1, [])

/-- An event in the execution of a handler, for stating the locking
discipline: acquiring or releasing the module-level lock, touching the
contents of one of the two registries, or calling `send_to_telex`. -/
inductive Ev where
  | acquire
  | release
  | regAccess (registry : String)
  | dispatch
deriving DecidableEq

/-- Event trace of `stop_focus` with a `session_id` that is found
(src/main.py:135-142): enter `with lock:` (line 135), read `SESSIONS`
(line 137), mutate the session (line 140), call `send_to_telex` (line 141),
and release the lock only when the `return` at line 142 leaves the `with`
block. -/
def stop_focus_found_trace : List Ev :=
  [.acquire, .regAccess "SESSIONS", .regAccess "SESSIONS", .dispatch, .release]

/-- Event trace of `enable_daily_summary` on a valid request
(src/main.py:160-171): the handler writes `USER_SUMMARIES` at line 170
without acquiring the lock anywhere. -/
def enable_daily_summary_trace : List Ev :=
  [.regAccess "USER_SUMMARIES"]

/-- True when some `dispatch` event occurs while the lock depth is positive. -/
def dispatchUnderLock : Nat → List Ev → Bool
  | _, [] => false
  | d, .acquire :: r => dispatchUnderLock (d + 1) r
  | d, .release :: r => dispatchUnderLock (d - 1) r
  | d, .dispatch :: r => decide (0 < d) || dispatchUnderLock d r
  | d, .regAccess _ :: r => dispatchUnderLock d r

/-- True when some registry access occurs while the lock depth is zero. -/
def regAccessWithoutLock : Nat → List Ev → Bool
  | _, [] => false
  | d, .acquire :: r => regAccessWithoutLock (d + 1) r
  | d, .release :: r => regAccessWithoutLock (d - 1) r
  | d, .dispatch :: r => regAccessWithoutLock d r
  | d, .regAccess _ :: r => decide (d = 0) || regAccessWithoutLock d r

/-! Helper material shared by several theorems. -/

/-- A concrete session record with the given ids and status, with the default
duration 25 and break 5, started at time 0. -/
def mkSess (sid uid cid st : String) : Session :=
  { session_id := sid, user_id := uid, channel_id := cid, start := 0,
    «end» := 25, duration := 25, «break» := 5, status := st,
    completed_at := none }

/-- The reverse scan of the stop-by-user loop picks exactly the head of the
filtered list it runs over. -/
theorem scanRunning_eq_head_filter (uid : String) :
    ∀ l : List (String × Session),
      scanRunning uid l =
        (l.filter (fun q => q.2.user_id == uid && q.2.status == "running")).head?
  | [] => rfl
  | (sid, s) :: rest => by
    by_cases h : (s.user_id == uid && s.status == "running") = true
    · simp [scanRunning, List.filter_cons, h]
    · simp only [scanRunning, List.filter_cons, h, if_neg]
      simp only [Bool.not_eq_true] at h
      simp [h, scanRunning_eq_head_filter uid rest]

/-- Scanning the reversed registry returns the last matching entry of the
registry in insertion order: the most recently created running session of the
user. -/
theorem scanRunning_reverse_eq_getLast_filter (uid : String) (sessions : Registry) :
    scanRunning uid sessions.reverse =
      (sessions.filter (fun q => q.2.user_id == uid && q.2.status == "running")).getLast? := by
  rw [scanRunning_eq_head_filter, List.filter_reverse, List.head?_reverse]

/-- A key on which `List.any` is false is not among the keys. -/
theorem not_mem_keys_of_any_eq_false (sid : String) (sessions : Registry)
    (h : sessions.any (fun p => p.1 == sid) = false) :
    sid ∉ sessions.map Prod.fst := by
  intro hmem
  rcases List.mem_map.mp hmem with ⟨p, hp, hfst⟩
  have hnp := List.any_eq_false.mp h p hp
  simp [hfst] at hnp

/-! Claim theorems. -/

/-- C1: the claim states that a focus-end callback firing on a session whose
status is no longer `running` performs no transition and dispatches nothing.
The code refutes this: `end_focus` guards only on existence (src/main.py:63),
so on a session already `stopped` it still overwrites the status with
`focus_completed`, sends the focus-finished message, and schedules the break
timer. -/
theorem end_focus_overrides_stop :
    (mkSess "s1" "u1" "c1" "stopped").status ≠ "running" ∧
    end_focus "s1" [("s1", mkSess "s1" "u1" "c1" "stopped")] =
      ([("s1", mkSess "s1" "u1" "c1" "focus_completed")],
       [("c1", focusDoneText "u1" 5)], [(5, "s1")]) := by
  exact ⟨by decide, rfl⟩

/-- C2: the claim states that no operation leaves the terminal states
`completed` or `stopped`. The code refutes this twice over: `stop_focus` with
a session id overwrites any status with `stopped` (src/main.py:140), moving a
`completed` session to `stopped`, and `end_break` overwrites any status with
`completed` (src/main.py:80), moving a `stopped` session to `completed`. -/
theorem terminal_states_are_left :
    stop_focus (some "s1") none [("s1", mkSess "s1" "u1" "c1" "completed")] =
      (.stopped none, [("s1", mkSess "s1" "u1" "c1" "stopped")],
       [("c1", stopText "u1")]) ∧
    end_break "s1" 9 [("s1", mkSess "s1" "u1" "c1" "stopped")] =
      ([("s1", { mkSess "s1" "u1" "c1" "completed" with completed_at := some 9 })],
       [("c1", breakOverText "u1")]) := by
  exact ⟨rfl, rfl⟩

/-- C3: the claim states that a tick at a matching minute dispatches exactly
one summary. The code refutes this: on the first due config the worker
executes `with lock:` at src/main.py:187 while already holding the same
non-reentrant `threading.Lock` from src/main.py:180, so the tick blocks
forever (`none`) and dispatches nothing. -/
theorem daily_summary_tick_deadlocks :
    daily_summary_tick "21:00"
      [("u1", { enabled := true, time := "21:00", channel_id := "c1" })] [] =
      none := by
  exact rfl

/-- C7: the claim states that dispatch to the messaging integration always
happens outside the lock and registry access always under it. The code
refutes both: `stop_focus` calls `send_to_telex` inside its `with lock:`
block (src/main.py:141), and `enable_daily_summary` writes `USER_SUMMARIES`
with no lock at all (src/main.py:170). -/
theorem locking_discipline_violated :
    dispatchUnderLock 0 stop_focus_found_trace = true ∧
    regAccessWithoutLock 0 enable_daily_summary_trace = true := by
  exact ⟨rfl, rfl⟩

/-- C9: `send_to_telex` is total and Bool-valued (it never propagates an
exception); with the webhook URL unset (or empty, both falsy at
src/main.py:48) it returns true without dispatching; when configured it
returns true exactly on HTTP success and false on any raised exception. -/
theorem send_to_telex_never_raises (url : Option String) (r : Except String Unit)
    (u e : String) :
    (send_to_telex url r = true ∨ send_to_telex url r = false) ∧
    send_to_telex none r = true ∧
    send_to_telex (some "") r = true ∧
    send_to_telex (some u) (.ok ()) = true ∧
    send_to_telex (some u) (.error e) = (u == "") := by
  refine ⟨?_, rfl, ?_, ?_, ?_⟩
  · cases send_to_telex url r <;> simp
  · cases r <;> rfl
  · by_cases h : u = "" <;> simp [send_to_telex, falsy, h]
  · by_cases h : u = "" <;> simp [send_to_telex, falsy, h]

/-- C5: the digest aggregation includes exactly the sessions of the user
whose status is `completed` or `focus_completed` (src/main.py:188) — a
session whose focus finished but whose break has not elapsed counts — and it
excludes `running` and `stopped` sessions; the reported totals are the count
of those sessions and the sum of their `duration` fields (src/main.py:189-190). -/
theorem digest_aggregates_completed_and_focus_completed
    (uid : String) (sessions : Registry) (s : Session) :
    (s ∈ list_completed_for_user uid sessions ↔
      (s ∈ sessions.map Prod.snd ∧ s.user_id = uid ∧
        (s.status = "completed" ∨ s.status = "focus_completed"))) ∧
    (s.status = "running" → s ∉ list_completed_for_user uid sessions) ∧
    (s.status = "stopped" → s ∉ list_completed_for_user uid sessions) ∧
    daily_digest_counts uid sessions =
      ((list_completed_for_user uid sessions).length,
        ((list_completed_for_user uid sessions).map Session.duration).sum) := by
  refine ⟨?_, ?_, ?_, rfl⟩
  · simp [list_completed_for_user, List.mem_filter, and_assoc]
  · intro hst hmem
    simp [list_completed_for_user, List.mem_filter, hst] at hmem
  · intro hst hmem
    simp [list_completed_for_user, List.mem_filter, hst] at hmem

/-- C5 witness: the theorem instantiated at a registry holding one
focus_completed session of the user, which is counted. -/
theorem digest_aggregates_witness :
    (mkSess "s1" "u1" "c1" "focus_completed" ∈
        list_completed_for_user "u1" [("s1", mkSess "s1" "u1" "c1" "focus_completed")] ↔
      (mkSess "s1" "u1" "c1" "focus_completed" ∈
          ([("s1", mkSess "s1" "u1" "c1" "focus_completed")] : Registry).map Prod.snd ∧
        (mkSess "s1" "u1" "c1" "focus_completed").user_id = "u1" ∧
        ((mkSess "s1" "u1" "c1" "focus_completed").status = "completed" ∨
          (mkSess "s1" "u1" "c1" "focus_completed").status = "focus_completed"))) ∧
    ((mkSess "s1" "u1" "c1" "focus_completed").status = "running" →
      mkSess "s1" "u1" "c1" "focus_completed" ∉
        list_completed_for_user "u1" [("s1", mkSess "s1" "u1" "c1" "focus_completed")]) ∧
    ((mkSess "s1" "u1" "c1" "focus_completed").status = "stopped" →
      mkSess "s1" "u1" "c1" "focus_completed" ∉
        list_completed_for_user "u1" [("s1", mkSess "s1" "u1" "c1" "focus_completed")]) ∧
    daily_digest_counts "u1" [("s1", mkSess "s1" "u1" "c1" "focus_completed")] =
      ((list_completed_for_user "u1" [("s1", mkSess "s1" "u1" "c1" "focus_completed")]).length,
        ((list_completed_for_user "u1"
            [("s1", mkSess "s1" "u1" "c1" "focus_completed")]).map Session.duration).sum) :=
  digest_aggregates_completed_and_focus_completed "u1"
    [("s1", mkSess "s1" "u1" "c1" "focus_completed")]
    (mkSess "s1" "u1" "c1" "focus_completed")

/-- C4: stopping by user id resolves through the reverse-insertion-order scan
(src/main.py:145): when the user has at least one running session, the most
recently created one — the last matching entry in insertion order — is set to
`stopped`, a stop message is sent to its channel, and its id is returned;
when the user has none, the request fails with the 404 not-found response. -/
theorem stop_by_user_targets_latest_running (uid : String) (sessions : Registry)
    (hu : uid ≠ "") :
    (∀ sid s,
      (sessions.filter (fun q => q.2.user_id == uid && q.2.status == "running")).getLast?
          = some (sid, s) →
      stop_focus none (some uid) sessions =
        (.stopped (some sid), setSession sid { s with status := "stopped" } sessions,
         [(s.channel_id, stopText uid)])) ∧
    (sessions.filter (fun q => q.2.user_id == uid && q.2.status == "running") = [] →
      stop_focus none (some uid) sessions =
        (.notFound "no running session for user", sessions, [])) := by
  have hbeq : (uid == "") = false := beq_eq_false_iff_ne.mpr hu
  constructor
  · intro sid s hlast
    unfold stop_focus
    simp only [falsy, hbeq, Bool.and_false, Option.getD_some, Bool.false_eq_true,
      if_false, if_true, Bool.true_and]
    rw [scanRunning_reverse_eq_getLast_filter, hlast]
  · intro hempty
    unfold stop_focus
    simp only [falsy, hbeq, Bool.and_false, Option.getD_some, Bool.false_eq_true,
      if_false, if_true, Bool.true_and]
    rw [scanRunning_reverse_eq_getLast_filter, hempty]
    rfl

/-- C4 witness: with two running sessions of the same user in insertion order
a then b, stop-by-user-id stops b, the most recently created one, and returns
its id; instantiated from the theorem with the getLast? hypothesis discharged
by computation. -/
theorem stop_by_user_witness :
    stop_focus none (some "u1")
      [("a", mkSess "a" "u1" "c1" "running"), ("b", mkSess "b" "u1" "c1" "running")] =
      (.stopped (some "b"),
       [("a", mkSess "a" "u1" "c1" "running"), ("b", mkSess "b" "u1" "c1" "stopped")],
       [("c1", stopText "u1")]) := by
  have h := stop_by_user_targets_latest_running "u1"
    [("a", mkSess "a" "u1" "c1" "running"), ("b", mkSess "b" "u1" "c1" "running")]
    (by decide)
  exact h.1 "b" (mkSess "b" "u1" "c1" "running") rfl

/-- C10: the `int()` coercions at src/main.py:91-92 run before the
`user_id`/`channel_id` validation at line 94, so any request whose duration
or break field does not coerce makes the handler raise an uncaught exception
(`Except.error`) instead of producing a response — in particular no 400 JSON
error body — whatever the ids are. -/
theorem int_coercion_precedes_validation (req : StartReq) (sid : String) (now : Int)
    (sessions : Registry)
    (h : coerced req.duration 25 = none ∨ coerced req.«break» 5 = none) :
    ∃ e, start_focus req sid now sessions = .error e := by
  rcases h with h | h
  · refine ⟨"invalid argument to int() in field duration", ?_⟩
    unfold start_focus
    rw [h]
  · cases hd : coerced req.duration 25 with
    | none =>
      refine ⟨"invalid argument to int() in field duration", ?_⟩
      unfold start_focus
      rw [hd]
    | some d =>
      refine ⟨"invalid argument to int() in field break", ?_⟩
      unfold start_focus
      rw [hd, h]

/-- C10 witness: a request with non-numeric duration and missing user_id and
channel_id raises instead of receiving the 400 validation response. -/
theorem int_coercion_witness :
    ∃ e, start_focus
      { user_id := none, channel_id := none,
        duration := some (.jStr "ten"), «break» := none } "s1" 0 [] = .error e :=
  int_coercion_precedes_validation
    { user_id := none, channel_id := none,
      duration := some (.jStr "ten"), «break» := none } "s1" 0 [] (Or.inl rfl)

/-- A request with both ids missing and a non-numeric duration string. -/
def reqNoIds : StartReq :=
  { user_id := none, channel_id := none,
    duration := some (.jStr "ten"), «break» := none }

/-- A valid request supplying duration 30 and break 10. -/
def reqValid : StartReq :=
  { user_id := some "u1", channel_id := some "c1",
    duration := some (.jInt 30), «break» := some (.jInt 10) }

/-- A request supplying duration 0 and break -3, which no validation
rejects. -/
def reqZero : StartReq :=
  { user_id := some "u1", channel_id := some "c1",
    duration := some (.jInt 0), «break» := some (.jInt (-3)) }

/-- A valid request leaving duration and break absent. -/
def reqDefaults : StartReq :=
  { user_id := some "u1", channel_id := some "c1",
    duration := none, «break» := none }

/-- C6 counterexample: the claim says a 400 error body is returned whenever
user_id or channel_id is missing or empty; but `reqNoIds`, whose ids are both
missing and whose duration is the non-numeric string "ten", raises at the
`int()` call of src/main.py:91 before the validation at line 94 runs, so no
400 response is produced. -/
theorem missing_ids_not_always_400 :
    falsy reqNoIds.user_id = true ∧
    start_focus reqNoIds "s1" 0 [] =
      .error "invalid argument to int() in field duration" := by
  exact ⟨rfl, rfl⟩

/-- C6 (amended): for requests whose duration and break fields coerce under
`int()` (absent fields default to 25 and 5), `start_focus` returns the 400
error body iff user_id or channel_id is missing or empty; otherwise, for a
session id not already present (uuid4 freshness), it appends a record with
status `running` and planned end equal to start plus the duration, returns
that id with status started, the record is immediately visible in the status
listing for the user, and the registry keys stay duplicate-free. -/
theorem start_focus_spec (req : StartReq) (sid : String) (now d b : Int)
    (sessions : Registry)
    (hd : coerced req.duration 25 = some d)
    (hb : coerced req.«break» 5 = some b)
    (hfresh : sessions.any (fun p => p.1 == sid) = false) :
    (start_focus req sid now sessions =
        .ok (.badRequest "user_id and channel_id required", sessions, [], []) ↔
      (falsy req.user_id = true ∨ falsy req.channel_id = true)) ∧
    (req.duration = none → d = 25) ∧
    (req.«break» = none → b = 5) ∧
    (falsy req.user_id = false → falsy req.channel_id = false →
      ∃ newS : Session,
        newS.session_id = sid ∧ newS.user_id = req.user_id.getD "" ∧
        newS.channel_id = req.channel_id.getD "" ∧ newS.start = now ∧
        newS.«end» = now + d ∧ newS.duration = d ∧ newS.«break» = b ∧
        newS.status = "running" ∧
        start_focus req sid now sessions =
          .ok (.started sid, sessions ++ [(sid, newS)],
               [(newS.channel_id, startText newS.user_id d)], [(d, sid)]) ∧
        newS ∈ status newS.user_id (sessions ++ [(sid, newS)]) ∧
        ((sessions.map Prod.fst).Nodup →
          ((sessions ++ [(sid, newS)]).map Prod.fst).Nodup)) := by
  have e : start_focus req sid now sessions =
      (if falsy req.user_id || falsy req.channel_id then
        .ok (.badRequest "user_id and channel_id required", sessions, [], [])
      else
        .ok (.started sid,
          dictInsert sid
            { session_id := sid, user_id := req.user_id.getD "",
              channel_id := req.channel_id.getD "", start := now,
              «end» := now + d, duration := d, «break» := b,
              status := "running", completed_at := none } sessions,
          [(req.channel_id.getD "", startText (req.user_id.getD "") d)],
          [(d, sid)])) := by
    unfold start_focus
    rw [hd, hb]
  refine ⟨?_, ?_, ?_, ?_⟩
  · rw [e]
    by_cases h1 : falsy req.user_id <;> by_cases h2 : falsy req.channel_id <;>
      simp [h1, h2]
  · intro h
    rw [h] at hd
    simp [coerced] at hd
    omega
  · intro h
    rw [h] at hb
    simp [coerced] at hb
    omega
  · intro h1 h2
    refine ⟨{ session_id := sid, user_id := req.user_id.getD "",
              channel_id := req.channel_id.getD "", start := now,
              «end» := now + d, duration := d, «break» := b,
              status := "running", completed_at := none },
      rfl, rfl, rfl, rfl, rfl, rfl, rfl, rfl, ?_, ?_, ?_⟩
    · rw [e, h1, h2]
      simp [dictInsert, hfresh]
    · simp [status, List.mem_filter]
    · intro hnd
      have hnot := not_mem_keys_of_any_eq_false sid sessions hfresh
      simp [List.nodup_append, hnd, hnot]

/-- C6 witness: the amended theorem instantiated at a valid request with
duration 30 and break 10 on an empty registry, all hypotheses discharged by
computation. -/
theorem start_focus_spec_witness :
    (start_focus reqValid "s1" 100 [] =
        .ok (.badRequest "user_id and channel_id required", [], [], []) ↔
      (falsy reqValid.user_id = true ∨ falsy reqValid.channel_id = true)) ∧
    (reqValid.duration = none → (30 : Int) = 25) ∧
    (reqValid.«break» = none → (10 : Int) = 5) ∧
    (falsy reqValid.user_id = false → falsy reqValid.channel_id = false →
      ∃ newS : Session,
        newS.session_id = "s1" ∧ newS.user_id = "u1" ∧
        newS.channel_id = "c1" ∧ newS.start = 100 ∧
        newS.«end» = 100 + 30 ∧ newS.duration = 30 ∧ newS.«break» = 10 ∧
        newS.status = "running" ∧
        start_focus reqValid "s1" 100 [] =
          .ok (.started "s1", [] ++ [("s1", newS)],
               [(newS.channel_id, startText newS.user_id 30)], [(30, "s1")]) ∧
        newS ∈ status newS.user_id ([] ++ [("s1", newS)]) ∧
        ((([] : Registry).map Prod.fst).Nodup →
          ((([] : Registry) ++ [("s1", newS)]).map Prod.fst).Nodup)) :=
  start_focus_spec reqValid "s1" 100 30 10 [] rfl rfl rfl

/-- C8 counterexample: the claim says every stored session has strictly
positive duration and break; but a request supplying duration 0 and break -3
is accepted (no positivity check exists at src/main.py:91-92) and the record
stores exactly those values. -/
theorem zero_duration_accepted :
    start_focus reqZero "s1" 7 [] =
      .ok (.started "s1",
        [("s1", { session_id := "s1", user_id := "u1", channel_id := "c1",
                  start := 7, «end» := 7, duration := 0, «break» := -3,
                  status := "running", completed_at := none })],
        [("c1", startText "u1" 0)], [(0, "s1")]) ∧
    ¬ ((0 : Int) > 0) ∧ ¬ ((-3 : Int) > 0) := by
  exact ⟨rfl, by decide, by decide⟩

/-- C8 (amended): the recorded duration and break of an accepted session are
exactly the `int()`-coerced request values, with no positivity validation;
only the defaults taken when the fields are absent, 25 and 5, are guaranteed
positive. -/
theorem stored_durations_equal_coerced_values (req : StartReq) (sid : String)
    (now d b : Int) (sessions : Registry)
    (hd : coerced req.duration 25 = some d)
    (hb : coerced req.«break» 5 = some b)
    (hu : falsy req.user_id = false) (hc : falsy req.channel_id = false) :
    start_focus req sid now sessions =
      .ok (.started sid,
        dictInsert sid
          { session_id := sid, user_id := req.user_id.getD "",
            channel_id := req.channel_id.getD "", start := now, «end» := now + d,
            duration := d, «break» := b, status := "running", completed_at := none }
          sessions,
        [(req.channel_id.getD "", startText (req.user_id.getD "") d)],
        [(d, sid)]) ∧
    (req.duration = none → d = 25 ∧ 0 < d) ∧
    (req.«break» = none → b = 5 ∧ 0 < b) := by
  refine ⟨?_, ?_, ?_⟩
  · unfold start_focus
    rw [hd, hb, hu, hc]
    rfl
  · intro h
    rw [h] at hd
    simp [coerced] at hd
    omega
  · intro h
    rw [h] at hb
    simp [coerced] at hb
    omega

/-- C8 witness: the amended theorem instantiated at a request leaving both
fields absent, so the stored values are the positive defaults 25 and 5. -/
theorem stored_durations_witness :
    start_focus reqDefaults "s1" 3 [] =
      .ok (.started "s1",
        dictInsert "s1"
          { session_id := "s1", user_id := "u1", channel_id := "c1",
            start := 3, «end» := 3 + 25, duration := 25, «break» := 5,
            status := "running", completed_at := none } [],
        [("c1", startText "u1" 25)], [(25, "s1")]) ∧
    (25 : Int) = 25 ∧ (0 : Int) < 25 ∧ (5 : Int) = 5 ∧ (0 : Int) < 5 := by
  have h := stored_durations_equal_coerced_values reqDefaults "s1" 3 25 5 []
    rfl rfl rfl rfl
  exact ⟨h.1, (h.2.1 rfl).1, (h.2.1 rfl).2, (h.2.2 rfl).1, (h.2.2 rfl).2⟩

end FocusPulse
